import Mathlib

/-!
Verification of the export worker in `src/export/worker/export.py`
(osm2vectortiles repository).

The worker leases job messages from a queue, decodes each body as JSON,
invokes the external tilelive renderer as a subprocess, uploads the
resulting mbtiles artifact to an object store, and deletes the queue
message only after a successful upload.

Shallow embedding conventions:
* A queue message body is modelled as `Option JVal`: `some v` when
  `json.loads` on the body text succeeds with decoded value `v`, `none`
  when it raises (invalid JSON).
* External outcomes (renderer exit code, upload success, the absolute
  path resolver, the `TILELIVE_BIN` environment variable) live in `Env`.
* Side effects observable by the queue and the store are recorded as an
  `Event` trace; a Python exception propagating out of the loop is the
  `Option ExportError` component of the result.
* Python `str()` / `'{}'.format()` of a JSON-decoded value is `pystr`;
  numbers carry their own Python decimal rendering so formatting is exact.
-/

/-- JSON values as produced by `json.loads`.  A `jfloat` carries the exact
decimal rendering Python `str()` would print for it; a `jint` is rendered
via `toString`, which agrees with Python `str()` on integers. -/
inductive JVal where
  | jnull
  | jbool (b : Bool)
  | jint (n : Int)
  | jfloat (render : String)
  | jstr (s : String)
  | jarr (xs : List JVal)
  | jobj (fields : List (String × JVal))

/-- The single-quote character, used by Python `repr` of strings. -/
def pyQuote : String := (Char.ofNat 39).toString

mutual
/-- Python `repr` of a JSON-decoded value (what `str` of a container shows
for its elements). -/
def pyrepr : JVal → String
  | .jnull => "None"
  | .jbool b => cond b "True" "False"
  | .jint n => toString n
  | .jfloat render => render
  | .jstr s => pyQuote ++ s ++ pyQuote
  | .jarr xs => "[" ++ pyreprList xs ++ "]"
  | .jobj fs => "\x7b" ++ pyreprObj fs ++ "\x7d"

def pyreprList : List JVal → String
  | [] => ""
  | [v] => pyrepr v
  | v :: vs => pyrepr v ++ ", " ++ pyreprList vs

def pyreprObj : List (String × JVal) → String
  | [] => ""
  | [(k, v)] => pyQuote ++ k ++ pyQuote ++ ": " ++ pyrepr v
  | (k, v) :: fs => pyQuote ++ k ++ pyQuote ++ ": " ++ pyrepr v ++ ", " ++ pyreprObj fs
end

/-- Python `str()` of a JSON-decoded value, as used by
`'{}'.format(value)` in the source. -/
def pystr : JVal → String
  | .jstr s => s
  | v => pyrepr v

/-- `d[k]` on a decoded JSON value: returns the field of an object, and
`none` when the key is missing or the value is not an object (Python
raises `KeyError` / `TypeError` there). -/
def jget : JVal → String → Option JVal
  | .jobj fs, key => lookupField fs key
  | _, _ => none
where
  lookupField : List (String × JVal) → String → Option JVal
    | [], _ => none
    | (k, v) :: fs, key => if k = key then some v else lookupField fs key

/-- The fields the worker reads out of one job message body
(`body['x']`, `body['y']`, `body['bounds'][...]`, `body['min_zoom']`,
`body['max_zoom']` in `export_remote`). -/
structure Job where
  x : JVal
  y : JVal
  west : JVal
  south : JVal
  east : JVal
  north : JVal
  min_zoom : JVal
  max_zoom : JVal

/-- The field accesses `export_remote` performs on a freshly decoded body,
in source order; any failing access (or invalid JSON, `body? = none`)
raises, which this embedding records as `none`. -/
def decodeJob (body? : Option JVal) : Option Job := do
  let body ← body?
  let x ← jget body "x"
  let y ← jget body "y"
  let bounds ← jget body "bounds"
  let west ← jget bounds "west"
  let south ← jget bounds "south"
  let east ← jget bounds "east"
  let north ← jget bounds "north"
  let min_zoom ← jget body "min_zoom"
  let max_zoom ← jget body "max_zoom"
  pure ⟨x, y, west, south, east, north, min_zoom, max_zoom⟩

/-- `'{}_{}.mbtiles'.format(body['x'], body['y'])`. -/
def mbtilesName (job : Job) : String :=
  pystr job.x ++ "_" ++ pystr job.y ++ ".mbtiles"

/-- `'{} {} {} {}'.format(bounds['west'], bounds['south'], bounds['east'],
bounds['north'])`. -/
def formatBbox (job : Job) : String :=
  pystr job.west ++ " " ++ pystr job.south ++ " " ++ pystr job.east ++ " "
    ++ pystr job.north

/-- External collaborators and environment of one worker run. -/
structure Env where
  /-- `os.getenv('TILELIVE_BIN', 'tl')`: `some b` when the variable is set. -/
  tileliveBin : Option String
  /-- `os.path.abspath`. -/
  abspath : String → String
  /-- Exit code of the renderer subprocess for the job leased as message
  `mid`. -/
  renderExit : Nat → Int
  /-- Whether the artifact upload for the job leased as message `mid`
  succeeds. -/
  uploadOk : Nat → Bool

/-- `create_tilelive_command` from the source: note the scheme argument to
the renderer is the literal `pyramid`; the `scheme` parameter is unused. -/
def create_tilelive_command (env : Env) (tm2source mbtiles_file bbox : String)
    (min_zoom max_zoom : JVal) (scheme : String) : List String :=
  let tilelive_binary := env.tileliveBin.getD "tl"
  let source := "tmsource://" ++ env.abspath tm2source
  let sink := "mbtiles://" ++ env.abspath mbtiles_file
  [tilelive_binary, "copy",
   "-s", "pyramid",
   "-b", bbox,
   "--min-zoom", pystr min_zoom,
   "--max-zoom", pystr max_zoom,
   source, sink]

/-- The command `export_remote` builds for a decoded job. -/
def cmdOf (env : Env) (tm2source scheme : String) (job : Job) : List String :=
  create_tilelive_command env tm2source (mbtilesName job) (formatBbox job)
    job.min_zoom job.max_zoom scheme

/-- Errors that propagate as Python exceptions out of one loop iteration. -/
inductive ExportError where
  /-- `json.loads` / field access raised on a malformed body. -/
  | decodeError
  /-- `subprocess.CalledProcessError(returncode=..., cmd=...)` raised by
  `export_local`. -/
  | calledProcessError (returncode : Int) (cmd : List String)
  /-- The store upload in `upload_mbtiles` raised. -/
  | uploadError
deriving DecidableEq

/-- `export_local`: run the renderer, wait, and raise
`CalledProcessError` when the exit code is non-zero. `exitCode` is the
subprocess exit status the environment supplies for this invocation. -/
def export_local (exitCode : Int) (cmd : List String) : Option ExportError :=
  if exitCode ≠ 0 then some (ExportError.calledProcessError exitCode cmd)
  else none

/-- `os.path.basename`: everything after the last slash. -/
def basename (p : String) : String :=
  String.mk (go p.data [])
where
  go : List Char → List Char → List Char
    | [], acc => acc
    | c :: cs, acc => if c = '/' then go cs [] else go cs (acc ++ [c])

/-- The object key `upload_mbtiles` stores the artifact under:
`os.path.basename(mbtiles_file)`. -/
def uploadKey (mbtiles_file : String) : String := basename mbtiles_file

/-- A leased queue message: `mid` identifies it for `delete_message`;
`body` is the result of `json.loads` on its body text. -/
structure Message where
  mid : Nat
  body : Option JVal

/-- Externally observable effects of one worker run, in order. -/
inductive Event where
  /-- `queue.read` returned message `mid` (a lease). -/
  | leaseHit (mid : Nat)
  /-- `queue.read` returned nothing. -/
  | leaseMiss
  /-- the renderer subprocess was started with argument vector `cmd`. -/
  | render (cmd : List String)
  /-- the store upload was called with object key `key`. -/
  | upload (key : String)
  /-- `queue.delete_message` was called for message `mid`. -/
  | delete (mid : Nat)
deriving DecidableEq

/-- One iteration body of `export_remote` after a successful lease:
decode, render, upload, delete.  Returns the effects performed and the
exception, if one propagated. -/
def runJob (env : Env) (tm2source render_scheme : String) (m : Message) :
    List Event × Option ExportError :=
  match decodeJob m.body with
  | none => ([], some ExportError.decodeError)
  | some job =>
    let mbtiles_file := mbtilesName job
    let cmd := cmdOf env tm2source render_scheme job
    match export_local (env.renderExit m.mid) cmd with
    | some e => ([Event.render cmd], some e)
    | none =>
      if env.uploadOk m.mid then
        ([Event.render cmd, Event.upload (uploadKey mbtiles_file),
          Event.delete m.mid], none)
      else
        ([Event.render cmd, Event.upload (uploadKey mbtiles_file)],
          some ExportError.uploadError)

/-- The `while True` loop of `export_remote`.  `msgs` is the sequence of
messages the queue delivers to successive `queue.read` calls; the loop
ends either at the first empty read (`break`) or when an exception
propagates out of an iteration. -/
def export_remote (env : Env) (tm2source render_scheme : String) :
    List Message → List Event × Option ExportError
  | [] => ([Event.leaseMiss], none)
  | m :: rest =>
    let r := runJob env tm2source render_scheme m
    match r.2 with
    | some e => (Event.leaseHit m.mid :: r.1, some e)
    | none =>
      let rr := export_remote env tm2source render_scheme rest
      (Event.leaseHit m.mid :: r.1 ++ rr.1, rr.2)

def isUpload : Event → Bool
  | .upload _ => true
  | _ => false

def isDelete : Event → Bool
  | .delete _ => true
  | _ => false

def isRender : Event → Bool
  | .render _ => true
  | _ => false

def isLeaseHit : Event → Bool
  | .leaseHit _ => true
  | _ => false

def isLeaseMiss : Event → Bool
  | .leaseMiss => true
  | _ => false

/-- No slash occurs in the string (so `os.path.basename` is the
identity on it). -/
def noSlash (s : String) : Bool := s.data.all (fun c => c ≠ '/')

-- Concrete fixtures used by the sanity checks and witnesses below.
-- `scenABody` is Scenario A of the spec: x=3, y=5, bounds west -10,
-- south 40, east 10, north 60, zooms 4..8.
def scenABody : JVal :=
  JVal.jobj
    [("x", JVal.jint 3), ("y", JVal.jint 5),
     ("bounds", JVal.jobj
       [("west", JVal.jint (-10)), ("south", JVal.jint 40),
        ("east", JVal.jint 10), ("north", JVal.jint 60)]),
     ("min_zoom", JVal.jint 4), ("max_zoom", JVal.jint 8)]

/-- The decoded form of `scenABody`. -/
def scenAJob : Job :=
  ⟨JVal.jint 3, JVal.jint 5, JVal.jint (-10), JVal.jint 40,
   JVal.jint 10, JVal.jint 60, JVal.jint 4, JVal.jint 8⟩

/-- Environment where rendering and upload both succeed. -/
def scenAEnv : Env :=
  { tileliveBin := none
    abspath := fun p => "/work/" ++ p
    renderExit := fun _ => 0
    uploadOk := fun _ => true }

/-- Environment where every renderer invocation exits with code 1. -/
def failEnv : Env :=
  { tileliveBin := none
    abspath := fun p => "/work/" ++ p
    renderExit := fun _ => 1
    uploadOk := fun _ => true }

/-- Environment where rendering succeeds and every upload fails. -/
def upFailEnv : Env :=
  { tileliveBin := none
    abspath := fun p => "/work/" ++ p
    renderExit := fun _ => 0
    uploadOk := fun _ => false }

def msgA : Message := ⟨0, some scenABody⟩

def msgB : Message := ⟨1, some scenABody⟩

/-- A message whose body text is not valid JSON (`json.loads` raises). -/
def badMsg : Message := ⟨0, none⟩

/-- A well-formed body whose `x` field is mistyped (a string, where the
data model expects a tile coordinate). -/
def mistypedBody : JVal :=
  JVal.jobj
    [("x", JVal.jstr "oops"), ("y", JVal.jint 5),
     ("bounds", JVal.jobj
       [("west", JVal.jint (-10)), ("south", JVal.jint 40),
        ("east", JVal.jint 10), ("north", JVal.jint 60)]),
     ("min_zoom", JVal.jint 4), ("max_zoom", JVal.jint 8)]

/-- A body violating the data-model invariant `min_zoom ≤ max_zoom`
(min 12, max 8). -/
def invZoomBody : JVal :=
  JVal.jobj
    [("x", JVal.jint 3), ("y", JVal.jint 5),
     ("bounds", JVal.jobj
       [("west", JVal.jint (-10)), ("south", JVal.jint 40),
        ("east", JVal.jint 10), ("north", JVal.jint 60)]),
     ("min_zoom", JVal.jint 12), ("max_zoom", JVal.jint 8)]

/-- The decoded form of `invZoomBody`. -/
def invZoomJob : Job :=
  ⟨JVal.jint 3, JVal.jint 5, JVal.jint (-10), JVal.jint 40,
   JVal.jint 10, JVal.jint 60, JVal.jint 12, JVal.jint 8⟩

-- #############################################################
-- Theorems.
-- #############################################################

-- Sanity checks on concrete data (Scenario A of the spec).

theorem scenA_decodes : decodeJob (some scenABody) = some scenAJob := rfl

theorem scenA_runs :
    runJob scenAEnv "style" "scanline" ⟨7, some scenABody⟩ =
      ([Event.render
          ["tl", "copy", "-s", "pyramid", "-b", "-10 40 10 60",
           "--min-zoom", "4", "--max-zoom", "8",
           "tmsource:///work/style", "mbtiles:///work/3_5.mbtiles"],
        Event.upload "3_5.mbtiles", Event.delete 7], none) := rfl

-- Case equations for `export_local` and `runJob`.

theorem export_local_zero (cmd : List String) : export_local 0 cmd = none := rfl

theorem export_local_nonzero (exitCode : Int) (cmd : List String)
    (h : exitCode ≠ 0) :
    export_local exitCode cmd =
      some (ExportError.calledProcessError exitCode cmd) := by
  simp [export_local, h]

theorem runJob_decode_fail (env : Env) (t s : String) (m : Message)
    (h : decodeJob m.body = none) :
    runJob env t s m = ([], some ExportError.decodeError) := by
  simp [runJob, h]

theorem runJob_render_fail (env : Env) (t s : String) (m : Message) (job : Job)
    (hd : decodeJob m.body = some job) (hx : env.renderExit m.mid ≠ 0) :
    runJob env t s m =
      ([Event.render (cmdOf env t s job)],
       some (ExportError.calledProcessError (env.renderExit m.mid)
         (cmdOf env t s job))) := by
  simp [runJob, hd, export_local_nonzero _ _ hx]

theorem runJob_success (env : Env) (t s : String) (m : Message) (job : Job)
    (hd : decodeJob m.body = some job) (hx : env.renderExit m.mid = 0)
    (hu : env.uploadOk m.mid = true) :
    runJob env t s m =
      ([Event.render (cmdOf env t s job),
        Event.upload (uploadKey (mbtilesName job)),
        Event.delete m.mid], none) := by
  simp [runJob, hd, hx, export_local, hu]

theorem runJob_upload_fail (env : Env) (t s : String) (m : Message) (job : Job)
    (hd : decodeJob m.body = some job) (hx : env.renderExit m.mid = 0)
    (hu : env.uploadOk m.mid = false) :
    runJob env t s m =
      ([Event.render (cmdOf env t s job),
        Event.upload (uploadKey (mbtilesName job))],
       some ExportError.uploadError) := by
  simp [runJob, hd, hx, export_local, hu]

-- Case equations for the worker loop.

theorem export_remote_nil (env : Env) (t s : String) :
    export_remote env t s [] = ([Event.leaseMiss], none) := rfl

theorem export_remote_cons_err (env : Env) (t s : String) (m : Message)
    (rest : List Message) (e : ExportError)
    (h : (runJob env t s m).2 = some e) :
    export_remote env t s (m :: rest) =
      (Event.leaseHit m.mid :: (runJob env t s m).1, some e) := by
  simp [export_remote, h]

theorem export_remote_cons_ok (env : Env) (t s : String) (m : Message)
    (rest : List Message) (h : (runJob env t s m).2 = none) :
    export_remote env t s (m :: rest) =
      (Event.leaseHit m.mid ::
        (runJob env t s m).1 ++ (export_remote env t s rest).1,
       (export_remote env t s rest).2) := by
  simp [export_remote, h]

/-- `runJob` never performs a lease: lease events come only from the loop. -/
theorem runJob_no_lease_events (env : Env) (t s : String) (m : Message) :
    (runJob env t s m).1.countP isLeaseHit = 0
      ∧ (runJob env t s m).1.countP isLeaseMiss = 0 := by
  cases hdec : decodeJob m.body with
  | none => rw [runJob_decode_fail env t s m hdec]; simp
  | some job =>
    by_cases hx : env.renderExit m.mid = 0
    · by_cases hu : env.uploadOk m.mid = true
      · rw [runJob_success env t s m job hdec hx hu]
        simp [isLeaseHit, isLeaseMiss]
      · rw [Bool.not_eq_true] at hu
        rw [runJob_upload_fail env t s m job hdec hx hu]
        simp [isLeaseHit, isLeaseMiss]
    · rw [runJob_render_fail env t s m job hdec hx]
      simp [isLeaseHit, isLeaseMiss]


-- `os.path.basename` facts.

theorem basename_go_no_slash (l : List Char) (acc : List Char)
    (h : ∀ c ∈ l, c ≠ '/') : basename.go l acc = acc ++ l := by
  induction l generalizing acc with
  | nil => simp [basename.go]
  | cons c cs ih =>
    have hc : c ≠ '/' := h c (by simp)
    rw [basename.go, if_neg hc, ih (acc ++ [c]) (fun d hd => h d (by simp [hd]))]
    simp

theorem basename_of_noSlash (p : String) (h : noSlash p = true) :
    basename p = p := by
  have hall : ∀ c ∈ p.data, c ≠ '/' := by
    intro c hc
    have := (List.all_eq_true.mp h) c hc
    simpa using this
  unfold basename
  rw [basename_go_no_slash p.data [] hall]
  cases p with
  | mk l => rfl

theorem noSlash_append (a b : String) :
    noSlash (a ++ b) = (noSlash a && noSlash b) := by
  simp [noSlash, String.data_append, List.all_append]

-- #############################################################
-- Claim theorems.
-- #############################################################

/-- C1: for every leased job whose renderer subprocess exits with a
non-zero code, the Job Runner raises the render failure
(`CalledProcessError`), the artifact store upload is never called, and
the queue message for that job is never deleted. -/
theorem render_fail_never_uploads_or_deletes (env : Env) (t s : String)
    (m : Message) (job : Job) (hd : decodeJob m.body = some job)
    (hx : env.renderExit m.mid ≠ 0) :
    (runJob env t s m).2 =
        some (ExportError.calledProcessError (env.renderExit m.mid)
          (cmdOf env t s job))
    ∧ (runJob env t s m).1.countP isUpload = 0
    ∧ (runJob env t s m).1.countP isDelete = 0 := by
  rw [runJob_render_fail env t s m job hd hx]
  refine ⟨rfl, ?_, ?_⟩ <;> simp [isUpload, isDelete]

/-- Witness for C1: Scenario A data under an environment whose renderer
exits with code 1. -/
theorem render_fail_never_uploads_or_deletes_witness :
    decodeJob (Message.mk 0 (some scenABody)).body = some scenAJob
    ∧ failEnv.renderExit 0 ≠ 0
    ∧ ((runJob failEnv "style" "pyramid" ⟨0, some scenABody⟩).2 =
          some (ExportError.calledProcessError (failEnv.renderExit 0)
            (cmdOf failEnv "style" "pyramid" scenAJob))
        ∧ (runJob failEnv "style" "pyramid"
            ⟨0, some scenABody⟩).1.countP isUpload = 0
        ∧ (runJob failEnv "style" "pyramid"
            ⟨0, some scenABody⟩).1.countP isDelete = 0) :=
  ⟨rfl, by decide,
    render_fail_never_uploads_or_deletes failEnv "style" "pyramid"
      ⟨0, some scenABody⟩ scenAJob rfl (by decide)⟩

/-- C2: for every leased job whose renderer exits with code zero and whose
upload succeeds, the queue message is deleted exactly once, and no delete
happens before the upload call. -/
theorem success_deletes_once_after_upload (env : Env) (t s : String)
    (m : Message) (job : Job) (hd : decodeJob m.body = some job)
    (hx : env.renderExit m.mid = 0) (hu : env.uploadOk m.mid = true) :
    (runJob env t s m).2 = none
    ∧ (runJob env t s m).1.countP isDelete = 1
    ∧ ((runJob env t s m).1.takeWhile
        (fun e => !isUpload e)).countP isDelete = 0 := by
  rw [runJob_success env t s m job hd hx hu]
  refine ⟨rfl, ?_, ?_⟩ <;> simp [isDelete, isUpload, List.takeWhile]

/-- Witness for C2: Scenario A data under an environment where rendering
and upload both succeed. -/
theorem success_deletes_once_after_upload_witness :
    decodeJob (Message.mk 0 (some scenABody)).body = some scenAJob
    ∧ scenAEnv.renderExit 0 = 0
    ∧ scenAEnv.uploadOk 0 = true
    ∧ ((runJob scenAEnv "style" "pyramid" ⟨0, some scenABody⟩).2 = none
        ∧ (runJob scenAEnv "style" "pyramid"
            ⟨0, some scenABody⟩).1.countP isDelete = 1
        ∧ ((runJob scenAEnv "style" "pyramid" ⟨0, some scenABody⟩).1.takeWhile
            (fun e => !isUpload e)).countP isDelete = 0) :=
  ⟨rfl, rfl, rfl,
    success_deletes_once_after_upload scenAEnv "style" "pyramid"
      ⟨0, some scenABody⟩ scenAJob rfl rfl rfl⟩

/-- C3: for every leased job whose renderer exits with code zero but whose
upload fails, the failure propagates (`uploadError` is fatal for the job)
and the queue message is never deleted; the upload was attempted once. -/
theorem upload_fail_never_deletes (env : Env) (t s : String) (m : Message)
    (job : Job) (hd : decodeJob m.body = some job)
    (hx : env.renderExit m.mid = 0) (hu : env.uploadOk m.mid = false) :
    (runJob env t s m).2 = some ExportError.uploadError
    ∧ (runJob env t s m).1.countP isUpload = 1
    ∧ (runJob env t s m).1.countP isDelete = 0 := by
  rw [runJob_upload_fail env t s m job hd hx hu]
  refine ⟨rfl, ?_, ?_⟩ <;> simp [isUpload, isDelete]

/-- Witness for C3: Scenario A data under an environment where rendering
succeeds and the upload fails. -/
theorem upload_fail_never_deletes_witness :
    decodeJob (Message.mk 0 (some scenABody)).body = some scenAJob
    ∧ upFailEnv.renderExit 0 = 0
    ∧ upFailEnv.uploadOk 0 = false
    ∧ ((runJob upFailEnv "style" "pyramid" ⟨0, some scenABody⟩).2 =
          some ExportError.uploadError
        ∧ (runJob upFailEnv "style" "pyramid"
            ⟨0, some scenABody⟩).1.countP isUpload = 1
        ∧ (runJob upFailEnv "style" "pyramid"
            ⟨0, some scenABody⟩).1.countP isDelete = 0) :=
  ⟨rfl, rfl, rfl,
    upload_fail_never_deletes upFailEnv "style" "pyramid"
      ⟨0, some scenABody⟩ scenAJob rfl rfl rfl⟩

/-- C4: for every decoded job the renderer argument vector is exactly
`<binary> copy -s pyramid -b <bbox> --min-zoom <min> --max-zoom <max>
<source> <sink>`, with the binary from `TILELIVE_BIN` defaulting to
`tl`, and the vector (indeed the whole job run) is independent of the
render scheme passed in: the scheme flag is the literal `pyramid`. -/
theorem renderer_command_shape_scheme_ignored (env : Env) (t s1 s2 : String)
    (m : Message) (job : Job) (hd : decodeJob m.body = some job) :
    (runJob env t s1 m).1.head? = some (Event.render
      [env.tileliveBin.getD "tl", "copy", "-s", "pyramid", "-b",
       formatBbox job, "--min-zoom", pystr job.min_zoom,
       "--max-zoom", pystr job.max_zoom,
       "tmsource://" ++ env.abspath t,
       "mbtiles://" ++ env.abspath (mbtilesName job)])
    ∧ runJob env t s1 m = runJob env t s2 m := by
  have hcmd : cmdOf env t s1 job =
      [env.tileliveBin.getD "tl", "copy", "-s", "pyramid", "-b",
       formatBbox job, "--min-zoom", pystr job.min_zoom,
       "--max-zoom", pystr job.max_zoom,
       "tmsource://" ++ env.abspath t,
       "mbtiles://" ++ env.abspath (mbtilesName job)] := rfl
  constructor
  · by_cases hx : env.renderExit m.mid = 0
    · by_cases hu : env.uploadOk m.mid = true
      · rw [runJob_success env t s1 m job hd hx hu, ← hcmd]; rfl
      · rw [Bool.not_eq_true] at hu
        rw [runJob_upload_fail env t s1 m job hd hx hu, ← hcmd]; rfl
    · rw [runJob_render_fail env t s1 m job hd hx, ← hcmd]; rfl
  · rfl

/-- Witness for C4: Scenario A data, two distinct schemes. -/
theorem renderer_command_shape_scheme_ignored_witness :
    decodeJob (Message.mk 0 (some scenABody)).body = some scenAJob
    ∧ ((runJob scenAEnv "style" "scanline" ⟨0, some scenABody⟩).1.head? =
         some (Event.render
           [scenAEnv.tileliveBin.getD "tl", "copy", "-s", "pyramid", "-b",
            formatBbox scenAJob, "--min-zoom", pystr scenAJob.min_zoom,
            "--max-zoom", pystr scenAJob.max_zoom,
            "tmsource://" ++ scenAEnv.abspath "style",
            "mbtiles://" ++ scenAEnv.abspath (mbtilesName scenAJob)])
        ∧ runJob scenAEnv "style" "scanline" ⟨0, some scenABody⟩ =
            runJob scenAEnv "style" "pyramid" ⟨0, some scenABody⟩) :=
  ⟨rfl,
    renderer_command_shape_scheme_ignored scenAEnv "style" "scanline"
      "pyramid" ⟨0, some scenABody⟩ scenAJob rfl⟩

/-- C5: the bounding-box string handed to the renderer is the four input
bounds values space-separated in the fixed order west, south, east,
north, exactly as decoded from the message body. -/
theorem bbox_preserves_input_order (env : Env) (t s : String) (m : Message)
    (body bounds x y w so ea no mn mx : JVal)
    (hbody : m.body = some body)
    (hx : jget body "x" = some x) (hy : jget body "y" = some y)
    (hb : jget body "bounds" = some bounds)
    (hw : jget bounds "west" = some w) (hs : jget bounds "south" = some so)
    (he : jget bounds "east" = some ea) (hn : jget bounds "north" = some no)
    (hmn : jget body "min_zoom" = some mn)
    (hmx : jget body "max_zoom" = some mx) :
    ∃ cmd, (runJob env t s m).1.head? = some (Event.render cmd)
      ∧ cmd.get? 5 =
          some (pystr w ++ " " ++ pystr so ++ " " ++ pystr ea ++ " "
            ++ pystr no) := by
  have hd : decodeJob m.body = some ⟨x, y, w, so, ea, no, mn, mx⟩ := by
    rw [hbody]
    simp [decodeJob, hx, hy, hb, hw, hs, he, hn, hmn, hmx]
  refine ⟨cmdOf env t s ⟨x, y, w, so, ea, no, mn, mx⟩, ?_, ?_⟩
  · by_cases hxc : env.renderExit m.mid = 0
    · by_cases hu : env.uploadOk m.mid = true
      · rw [runJob_success env t s m _ hd hxc hu]; rfl
      · rw [Bool.not_eq_true] at hu
        rw [runJob_upload_fail env t s m _ hd hxc hu]; rfl
    · rw [runJob_render_fail env t s m _ hd hxc]; rfl
  · rfl

/-- Witness for C5: Scenario A bounds, mixing signs (west is -10). -/
theorem bbox_preserves_input_order_witness :
    (Message.mk 0 (some scenABody)).body = some scenABody
    ∧ jget scenABody "x" = some (JVal.jint 3)
    ∧ jget scenABody "bounds" = some (JVal.jobj
        [("west", JVal.jint (-10)), ("south", JVal.jint 40),
         ("east", JVal.jint 10), ("north", JVal.jint 60)])
    ∧ (∃ cmd,
        (runJob scenAEnv "style" "pyramid" ⟨0, some scenABody⟩).1.head? =
          some (Event.render cmd)
        ∧ cmd.get? 5 =
            some (pystr (JVal.jint (-10)) ++ " " ++ pystr (JVal.jint 40)
              ++ " " ++ pystr (JVal.jint 10) ++ " "
              ++ pystr (JVal.jint 60))) :=
  ⟨rfl, rfl, rfl,
    bbox_preserves_input_order scenAEnv "style" "pyramid"
      ⟨0, some scenABody⟩ scenABody
      (JVal.jobj [("west", JVal.jint (-10)), ("south", JVal.jint 40),
        ("east", JVal.jint 10), ("north", JVal.jint 60)])
      (JVal.jint 3) (JVal.jint 5) (JVal.jint (-10)) (JVal.jint 40)
      (JVal.jint 10) (JVal.jint 60) (JVal.jint 4) (JVal.jint 8)
      rfl rfl rfl rfl rfl rfl rfl rfl rfl rfl⟩

/-- C10: the core never checks `min_zoom ≤ max_zoom`: for every decoded
job, whatever its zoom values, `create_tilelive_command` yields the full
12-element argument vector with both zooms stringified at their fixed
positions, and the run proceeds to invoke the renderer with it. -/
theorem zoom_invariant_unchecked (env : Env) (t s : String) (m : Message)
    (job : Job) (hd : decodeJob m.body = some job) :
    (cmdOf env t s job).length = 12
    ∧ (cmdOf env t s job).get? 7 = some (pystr job.min_zoom)
    ∧ (cmdOf env t s job).get? 9 = some (pystr job.max_zoom)
    ∧ (runJob env t s m).1.head? = some (Event.render (cmdOf env t s job)) := by
  refine ⟨rfl, rfl, rfl, ?_⟩
  by_cases hx : env.renderExit m.mid = 0
  · by_cases hu : env.uploadOk m.mid = true
    · rw [runJob_success env t s m job hd hx hu]; rfl
    · rw [Bool.not_eq_true] at hu
      rw [runJob_upload_fail env t s m job hd hx hu]; rfl
  · rw [runJob_render_fail env t s m job hd hx]; rfl

/-- Witness for C10: a job with `min_zoom = 12 > max_zoom = 8` is decoded
and rendered unchanged. -/
theorem zoom_invariant_unchecked_witness :
    decodeJob (Message.mk 0 (some invZoomBody)).body = some invZoomJob
    ∧ pystr invZoomJob.min_zoom = "12"
    ∧ pystr invZoomJob.max_zoom = "8"
    ∧ ((cmdOf scenAEnv "style" "pyramid" invZoomJob).length = 12
        ∧ (cmdOf scenAEnv "style" "pyramid" invZoomJob).get? 7 =
            some (pystr invZoomJob.min_zoom)
        ∧ (cmdOf scenAEnv "style" "pyramid" invZoomJob).get? 9 =
            some (pystr invZoomJob.max_zoom)
        ∧ (runJob scenAEnv "style" "pyramid"
            ⟨0, some invZoomBody⟩).1.head? =
              some (Event.render (cmdOf scenAEnv "style" "pyramid"
                invZoomJob))) :=
  ⟨rfl, rfl, rfl,
    zoom_invariant_unchecked scenAEnv "style" "pyramid"
      ⟨0, some invZoomBody⟩ invZoomJob rfl⟩

/-- When every delivered job processes without an exception, the loop
leases each message in turn and ends with exactly one empty read, which
is the last queue interaction of the run. -/
theorem worker_loop_drain_aux (env : Env) (t s : String) :
    ∀ msgs : List Message, (∀ m ∈ msgs, (runJob env t s m).2 = none) →
      (export_remote env t s msgs).1.countP isLeaseHit = msgs.length
      ∧ (export_remote env t s msgs).1.countP isLeaseMiss = 1
      ∧ (export_remote env t s msgs).1.getLast? = some Event.leaseMiss
      ∧ (export_remote env t s msgs).2 = none := by
  intro msgs
  induction msgs with
  | nil =>
    intro _
    simp [export_remote_nil, isLeaseHit, isLeaseMiss]
  | cons m rest ih =>
    intro hok
    have hm : (runJob env t s m).2 = none := hok m (by simp)
    obtain ⟨ih1, ih2, ih3, ih4⟩ := ih (fun m2 hm2 => hok m2 (by simp [hm2]))
    obtain ⟨hh, hmiss⟩ := runJob_no_lease_events env t s m
    have htr : (export_remote env t s (m :: rest)).1 =
        Event.leaseHit m.mid ::
          (runJob env t s m).1 ++ (export_remote env t s rest).1 := by
      rw [export_remote_cons_ok env t s m rest hm]
    have herr : (export_remote env t s (m :: rest)).2 =
        (export_remote env t s rest).2 := by
      rw [export_remote_cons_ok env t s m rest hm]
    have hne : (export_remote env t s rest).1 ≠ [] := by
      intro hnil
      rw [hnil] at ih3
      simp at ih3
    refine ⟨?_, ?_, ?_, herr.trans ih4⟩
    · rw [htr]
      simp [List.countP_cons, List.countP_append, hh, ih1, isLeaseHit]
    · rw [htr]
      simp [List.countP_cons, List.countP_append, hmiss, ih2, isLeaseMiss]
    · rw [htr]
      exact (List.getLast?_append_of_ne_nil
        (Event.leaseHit m.mid :: (runJob env t s m).1) hne).trans ih3

/-- C6 counterexample: the loop does NOT keep processing as long as
leases return messages.  With two well-formed jobs queued and a renderer
that exits 1, the run performs a single lease, never reaches the second
message, and ends without ever observing an empty queue: the render
failure, not an empty lease, terminated the loop. -/
theorem worker_loop_stops_early_counterexample :
    (export_remote failEnv "style" "pyramid" [msgA, msgB]).1.countP
        isLeaseHit = 1
    ∧ (export_remote failEnv "style" "pyramid" [msgA, msgB]).1.countP
        isLeaseMiss = 0
    ∧ (export_remote failEnv "style" "pyramid" [msgA, msgB]).2 ≠ none := by
  refine ⟨rfl, rfl, ?_⟩
  decide

/-- C6 (amended): the worker loop leases until the first empty read
PROVIDED every processed job succeeds: then every queued message is
leased, the single empty read is the final queue interaction, and an
empty queue on the first read exits immediately with zero
job-processing cycles.  (A job failure instead terminates the loop by
exception propagation, as the counterexample shows.) -/
theorem worker_loop_drains_until_empty (env : Env) (t s : String)
    (msgs : List Message)
    (hok : ∀ m ∈ msgs, (runJob env t s m).2 = none) :
    export_remote env t s [] = ([Event.leaseMiss], none)
    ∧ (export_remote env t s msgs).1.countP isLeaseHit = msgs.length
    ∧ (export_remote env t s msgs).1.countP isLeaseMiss = 1
    ∧ (export_remote env t s msgs).1.getLast? = some Event.leaseMiss
    ∧ (export_remote env t s msgs).2 = none :=
  ⟨rfl, worker_loop_drain_aux env t s msgs hok⟩

/-- Witness for (amended) C6: one well-formed job, all stages succeed. -/
theorem worker_loop_drains_until_empty_witness :
    (runJob scenAEnv "style" "pyramid" msgA).2 = none
    ∧ (export_remote scenAEnv "style" "pyramid" [] =
          ([Event.leaseMiss], none)
        ∧ (export_remote scenAEnv "style" "pyramid" [msgA]).1.countP
            isLeaseHit = [msgA].length
        ∧ (export_remote scenAEnv "style" "pyramid" [msgA]).1.countP
            isLeaseMiss = 1
        ∧ (export_remote scenAEnv "style" "pyramid" [msgA]).1.getLast? =
            some Event.leaseMiss
        ∧ (export_remote scenAEnv "style" "pyramid" [msgA]).2 = none) :=
  ⟨by decide,
    worker_loop_drains_until_empty scenAEnv "style" "pyramid" [msgA]
      (by decide)⟩

/-- C7 counterexample: (1) a malformed body IS a crash of the worker loop:
with an invalid-JSON message followed by a well-formed one, the run ends
with the decode exception propagated out of the loop and the second
message is never even leased; (2) a mistyped field does not necessarily
produce a decode error: a body whose `x` is a string decodes fine. -/
theorem malformed_body_counterexample :
    ((export_remote scenAEnv "style" "pyramid" [badMsg, msgB]).2 =
        some ExportError.decodeError
      ∧ (export_remote scenAEnv "style" "pyramid" [badMsg, msgB]).1 =
          [Event.leaseHit 0])
    ∧ (decodeJob (some mistypedBody)).isSome = true := by
  exact ⟨⟨rfl, rfl⟩, rfl⟩

/-- C7 (amended): a message whose body fails decoding (invalid JSON, a
missing field, or indexing a non-object) raises a fatal decode error
that propagates and terminates the worker loop; that message is never
deleted, and no render and no upload are attempted. -/
theorem malformed_body_fatal (env : Env) (t s : String) (m : Message)
    (rest : List Message) (hbad : decodeJob m.body = none) :
    runJob env t s m = ([], some ExportError.decodeError)
    ∧ export_remote env t s (m :: rest) =
        ([Event.leaseHit m.mid], some ExportError.decodeError)
    ∧ (export_remote env t s (m :: rest)).1.countP isRender = 0
    ∧ (export_remote env t s (m :: rest)).1.countP isUpload = 0
    ∧ (export_remote env t s (m :: rest)).1.countP isDelete = 0 := by
  have h1 : runJob env t s m = ([], some ExportError.decodeError) :=
    runJob_decode_fail env t s m hbad
  have h2 : export_remote env t s (m :: rest) =
      ([Event.leaseHit m.mid], some ExportError.decodeError) := by
    rw [export_remote_cons_err env t s m rest ExportError.decodeError
      (by rw [h1]), h1]
  refine ⟨h1, h2, ?_, ?_, ?_⟩ <;>
    rw [h2] <;> simp [isRender, isUpload, isDelete]

/-- Witness for (amended) C7: the invalid-JSON message. -/
theorem malformed_body_fatal_witness :
    decodeJob badMsg.body = none
    ∧ (runJob scenAEnv "style" "pyramid" badMsg =
          ([], some ExportError.decodeError)
        ∧ export_remote scenAEnv "style" "pyramid" [badMsg, msgB] =
            ([Event.leaseHit 0], some ExportError.decodeError)
        ∧ (export_remote scenAEnv "style" "pyramid"
            [badMsg, msgB]).1.countP isRender = 0
        ∧ (export_remote scenAEnv "style" "pyramid"
            [badMsg, msgB]).1.countP isUpload = 0
        ∧ (export_remote scenAEnv "style" "pyramid"
            [badMsg, msgB]).1.countP isDelete = 0) :=
  ⟨rfl,
    malformed_body_fatal scenAEnv "style" "pyramid" badMsg [msgB] rfl⟩

/-- C9: the local artifact file name and the uploaded object key are both
exactly `{x}_{y}.mbtiles` (the key is the basename of the file, equal to
it whenever the rendered coordinates contain no slash, as Python numbers
never do), the upload of the run uses that key, and the name depends on
the job's `x` and `y` only — never on bounds or zooms. -/
theorem artifact_naming_pure (env : Env) (t s : String) (m : Message)
    (job : Job) (hd : decodeJob m.body = some job)
    (hx : noSlash (pystr job.x) = true) (hy : noSlash (pystr job.y) = true)
    (hexit : env.renderExit m.mid = 0) :
    mbtilesName job = pystr job.x ++ "_" ++ pystr job.y ++ ".mbtiles"
    ∧ uploadKey (mbtilesName job) = mbtilesName job
    ∧ (runJob env t s m).1.get? 1 =
        some (Event.upload (mbtilesName job))
    ∧ ∀ job2 : Job, job2.x = job.x → job2.y = job.y →
        mbtilesName job2 = mbtilesName job := by
  have hkey : uploadKey (mbtilesName job) = mbtilesName job := by
    apply basename_of_noSlash
    unfold mbtilesName
    rw [noSlash_append, noSlash_append, noSlash_append, hx, hy]
    rfl
  refine ⟨rfl, hkey, ?_, ?_⟩
  · by_cases hu : env.uploadOk m.mid = true
    · rw [runJob_success env t s m job hd hexit hu, hkey]
      rfl
    · rw [Bool.not_eq_true] at hu
      rw [runJob_upload_fail env t s m job hd hexit hu, hkey]
      rfl
  · intro job2 h2x h2y
    unfold mbtilesName
    rw [h2x, h2y]

/-- Witness for C9: Scenario A (x=3, y=5) and a second job sharing x and
y but with different bounds and zooms. -/
theorem artifact_naming_pure_witness :
    decodeJob (Message.mk 0 (some scenABody)).body = some scenAJob
    ∧ noSlash (pystr scenAJob.x) = true
    ∧ noSlash (pystr scenAJob.y) = true
    ∧ scenAEnv.renderExit 0 = 0
    ∧ (mbtilesName scenAJob =
          pystr scenAJob.x ++ "_" ++ pystr scenAJob.y ++ ".mbtiles"
        ∧ uploadKey (mbtilesName scenAJob) = mbtilesName scenAJob
        ∧ (runJob scenAEnv "style" "pyramid"
            ⟨0, some scenABody⟩).1.get? 1 =
              some (Event.upload (mbtilesName scenAJob))
        ∧ mbtilesName ⟨JVal.jint 3, JVal.jint 5, JVal.jint 0, JVal.jint 0,
            JVal.jint 1, JVal.jint 1, JVal.jint 1, JVal.jint 2⟩ =
            mbtilesName scenAJob) :=
  ⟨rfl, rfl, rfl, rfl, by
    obtain ⟨h1, h2, h3, h4⟩ :=
      artifact_naming_pure scenAEnv "style" "pyramid"
        ⟨0, some scenABody⟩ scenAJob rfl rfl rfl rfl
    exact ⟨h1, h2, h3,
      h4 ⟨JVal.jint 3, JVal.jint 5, JVal.jint 0, JVal.jint 0,
        JVal.jint 1, JVal.jint 1, JVal.jint 1, JVal.jint 2⟩ rfl rfl⟩⟩
